import Mathlib

/-!
Verification development for the eglglessink video sink
(src/ext/eglgles/gsteglglessink.c).

The C file is shallowly embedded: each relevant C function becomes an
executable Lean definition over explicit state, with the opaque native
collaborators (EGL, GLES, GLib data queue, gst-plugins-base helpers)
represented by boolean oracles or by models taken from their documented
contracts.  Machine integers that matter are modelled as Nat or Int;
none of the claims exercises overflow, and no value in the modelled
paths approaches the 32/64-bit bounds.
-/

/-- Flow return codes exposed per frame (GstFlowReturn, restricted to the
values this sink produces: OK, ERROR, NOT_NEGOTIATED, WRONG_STATE). -/
inductive GstFlowReturn where
  | ok
  | error
  | notNegotiated
  | wrongState
  deriving DecidableEq, Repr

/-- The video formats the sink's pad template advertises (the exact set the
source file handles in its switches). -/
inductive GstVideoFormat where
  | RGBA | BGRA | ARGB | ABGR | RGBx | BGRx | xRGB | xBGR
  | AYUV | Y444 | I420 | YV12 | NV12 | NV21 | YUY2 | YVYU | UYVY | Y42B | Y41B
  | RGB | BGR | RGB16
  deriving DecidableEq, Repr

/-- The three hardware target configs probed at open time
(GST_EGLGLESSINK_IMAGE_RGBA8888 / RGB888 / RGB565). -/
inductive EglImageFmtKind where
  | rgba8888
  | rgb888
  | rgb565
  deriving DecidableEq, Repr

/-- Model of GstCaps as used by this sink: a set of video formats plus
optional fixed dimensions and pixel aspect fraction.  `none` in a field
means the caps leave that field unconstrained (template caps); fixed
caps carry `some` in every field. -/
structure GstCaps where
  formats : List GstVideoFormat
  width : Option Nat
  height : Option Nat
  par : Option (Nat × Nat)
  deriving DecidableEq, Repr

/-- Modelled from the spec: compatibility of one optional (template) field
of two caps, used by the model of gst_caps_can_intersect below.  An
unconstrained field intersects anything; two fixed fields intersect iff
equal. -/
def capsFieldCompat {α : Type} [DecidableEq α] : Option α → Option α → Bool
  | some a, some b => a == b
  | _, _ => true

/-- Modelled from the spec: gst_caps_can_intersect is provided by the
GStreamer core library, outside this repository.  Two caps can intersect
iff they share a video format and their constrained fields agree. -/
def gst_caps_can_intersect (a b : GstCaps) : Bool :=
  a.formats.any (fun f => b.formats.contains f) &&
    capsFieldCompat a.width b.width &&
    capsFieldCompat a.height b.height &&
    capsFieldCompat a.par b.par

/-- Modelled from the spec: gst_data_queue_push is provided by the
GStreamer core library, outside this repository.  The spec states the
contract used here: a push is rejected iff the queue has been marked
flushing (transient blocking while the queue is full is a timing matter
not visible in this embedding). -/
def gst_data_queue_push (flushing : Bool) : Bool :=
  !flushing

/-- Outcome of one call of gst_eglglessink_queue_buffer: the flow result
returned to the producer, and whether the producer blocked on the render
condition variable (g_cond_wait on render_cond) before returning. -/
structure QueueBufferOutcome where
  result : GstFlowReturn
  waited : Bool
  deriving DecidableEq, Repr

/-- Embedding of gst_eglglessink_queue_buffer (gsteglglessink.c:1670).
`visible` is whether a buffer is carried (buf non-NULL); the redraw
sentinel has visible = false.  `lastFlow` is the value of the shared
last_flow field observed when the condition wait returns. -/
def gst_eglglessink_queue_buffer (flushing : Bool) (visible : Bool)
    (lastFlow : GstFlowReturn) : QueueBufferOutcome :=
  if !(gst_data_queue_push flushing) then
    { result := GstFlowReturn.wrongState, waited := false }
  else if visible then
    { result := lastFlow, waited := true }
  else
    { result := GstFlowReturn.ok, waited := false }

/-- One item popped from the handoff queue, as seen by render_thread_func.
`buf = some c` is a visible buffer whose caps have identity `c`
(GST_BUFFER_CAPS (buf)); `buf = none` is the redraw sentinel.
`configureOk` is the outcome of gst_eglglessink_configure_caps if the
thread invokes it on this item, and `renderResult` the outcome of
gst_eglglessink_render_and_display if the thread invokes it. -/
structure QueueItem where
  buf : Option Nat
  configureOk : Bool
  renderResult : GstFlowReturn
  deriving DecidableEq, Repr

/-- The shared state touched by the render thread loop: the currently
configured caps identity (NULL = none) and the shared last_flow field. -/
structure RenderState where
  configuredCaps : Option Nat
  lastFlow : GstFlowReturn
  deriving DecidableEq, Repr

/-- One iteration of the while loop of render_thread_func
(gsteglglessink.c:586).  Returns the new state, the number of
render_cond broadcasts performed while handling this item, and whether
the loop continues to the next pop (false = break). -/
def render_thread_step (s : RenderState) (it : QueueItem) :
    RenderState × Nat × Bool :=
  match it.buf with
  | some c =>
    if some c ≠ s.configuredCaps ∧ ¬ it.configureOk then
      ({ s with lastFlow := GstFlowReturn.notNegotiated }, 1, false)
    else
      let s1 : RenderState :=
        if some c = s.configuredCaps then s else { s with configuredCaps := some c }
      let s2 : RenderState := { s1 with lastFlow := it.renderResult }
      (s2, 1, s2.lastFlow = GstFlowReturn.ok)
  | none =>
    let s2 : RenderState :=
      if s.configuredCaps.isSome then { s with lastFlow := it.renderResult } else s
    (s2, 0, s2.lastFlow = GstFlowReturn.ok)

/-- The pop loop of render_thread_func over the sequence of items the
producer side makes available before the queue is closed.  Returns the
final state, the number of items popped, and the total number of
render_cond broadcasts. -/
def render_thread_loop : RenderState → List QueueItem → RenderState × Nat × Nat
  | s, [] => (s, 0, 0)
  | s, it :: rest =>
    let r := render_thread_step s it
    if r.2.2 then
      let rec' := render_thread_loop r.1 rest
      (rec'.1, rec'.2.1 + 1, rec'.2.2 + r.2.1)
    else
      (r.1, 1, r.2.1)

/-- Embedding of render_thread_func (gsteglglessink.c:581): run the pop
loop, then force last_flow to WRONG_STATE if it is still OK, wipe the
EGL/GLES context and drop the configured caps reference. -/
def render_thread_func (s : RenderState) (items : List QueueItem) :
    RenderState × Nat × Nat :=
  let r := render_thread_loop s items
  ({ configuredCaps := none,
     lastFlow :=
       if r.1.lastFlow = GstFlowReturn.ok then GstFlowReturn.wrongState
       else r.1.lastFlow }, r.2)

/-- A supported-format catalog entry (GstEglGlesImageFmt): hardware target
config plus the caps it can display.  The EGL attribute array is fully
determined by `fmt` and is not repeated here. -/
structure GstEglGlesImageFmt where
  fmt : EglImageFmtKind
  caps : GstCaps
  deriving DecidableEq, Repr

/-- The caps built for the RGBA8888 catalog entry
(gsteglglessink.c:468-504), in source append order. -/
def eglglessink_RGBA8888_caps : GstCaps :=
  { formats := [GstVideoFormat.RGBA, GstVideoFormat.BGRA, GstVideoFormat.ARGB,
      GstVideoFormat.ABGR, GstVideoFormat.RGBx, GstVideoFormat.BGRx,
      GstVideoFormat.xRGB, GstVideoFormat.xBGR, GstVideoFormat.AYUV,
      GstVideoFormat.Y444, GstVideoFormat.I420, GstVideoFormat.YV12,
      GstVideoFormat.NV12, GstVideoFormat.NV21, GstVideoFormat.YUY2,
      GstVideoFormat.YVYU, GstVideoFormat.UYVY, GstVideoFormat.Y42B,
      GstVideoFormat.Y41B],
    width := none, height := none, par := none }

/-- The caps built for the RGB888 catalog entry (gsteglglessink.c:519-521). -/
def eglglessink_RGB888_caps : GstCaps :=
  { formats := [GstVideoFormat.RGB, GstVideoFormat.BGR],
    width := none, height := none, par := none }

/-- The caps built for the RGB565 catalog entry (gsteglglessink.c:535). -/
def eglglessink_RGB565_caps : GstCaps :=
  { formats := [GstVideoFormat.RGB16],
    width := none, height := none, par := none }

/-- The RGBA8888 catalog entry. -/
def eglglessink_RGBA8888_entry : GstEglGlesImageFmt :=
  { fmt := EglImageFmtKind.rgba8888, caps := eglglessink_RGBA8888_caps }

/-- The RGB888 catalog entry. -/
def eglglessink_RGB888_entry : GstEglGlesImageFmt :=
  { fmt := EglImageFmtKind.rgb888, caps := eglglessink_RGB888_caps }

/-- The RGB565 catalog entry. -/
def eglglessink_RGB565_entry : GstEglGlesImageFmt :=
  { fmt := EglImageFmtKind.rgb565, caps := eglglessink_RGB565_caps }

/-- Embedding of gst_eglglessink_fill_supported_fbuffer_configs
(gsteglglessink.c:449).  `sat k` is the oracle for whether
eglChooseConfig reports config `k` satisfiable.  The three configs are
probed in the fixed source order RGBA8888, RGB888, RGB565; each is
appended to the list only when satisfiable and counted in the returned
total. -/
def gst_eglglessink_fill_supported_fbuffer_configs
    (sat : EglImageFmtKind → Bool) : List GstEglGlesImageFmt × Nat :=
  let acc : List GstEglGlesImageFmt × Nat := ([], 0)
  let acc : List GstEglGlesImageFmt × Nat :=
    if sat EglImageFmtKind.rgba8888 then
      (acc.1 ++ [eglglessink_RGBA8888_entry], acc.2 + 1)
    else acc
  let acc : List GstEglGlesImageFmt × Nat :=
    if sat EglImageFmtKind.rgb888 then
      (acc.1 ++ [eglglessink_RGB888_entry], acc.2 + 1)
    else acc
  let acc : List GstEglGlesImageFmt × Nat :=
    if sat EglImageFmtKind.rgb565 then
      (acc.1 ++ [eglglessink_RGB565_entry], acc.2 + 1)
    else acc
  acc

/-- Embedding of gst_eglglessink_get_compat_format_from_caps
(gsteglglessink.c:416): traverse the supported-format list and return
the first entry whose caps can intersect the requested caps. -/
def gst_eglglessink_get_compat_format_from_caps :
    List GstEglGlesImageFmt → GstCaps → Option GstEglGlesImageFmt
  | [], _ => none
  | format :: rest, caps =>
    if gst_caps_can_intersect caps format.caps then some format
    else gst_eglglessink_get_compat_format_from_caps rest caps

/-- EGL_DISPLAY_SCALING, the unit scale of EGL_PIXEL_ASPECT_RATIO reports
(a Khronos constant with value 10000). -/
def EGL_DISPLAY_SCALING : Nat := 10000

/-- EGL_SANE_DAR_MIN (gsteglglessink.c:139): lower plausibility bound on a
backend-reported display pixel aspect value. -/
def EGL_SANE_DAR_MIN : Int := (EGL_DISPLAY_SCALING : Int) / 10

/-- EGL_SANE_DAR_MAX (gsteglglessink.c:140): upper plausibility bound on a
backend-reported display pixel aspect value. -/
def EGL_SANE_DAR_MAX : Int := (EGL_DISPLAY_SCALING : Int) * 10

/-- EGL_UNKNOWN, the EGL sentinel for an unknown attribute value. -/
def EGL_UNKNOWN : Int := -1

/-- Embedding of the display pixel-aspect-ratio selection performed while
creating the EGL surface (gsteglglessink.c:1162-1184).  `eglMajor` and
`eglMinor` are the version numbers reported by eglInitialize, and
`reported` is the EGL_PIXEL_ASPECT_RATIO value eglQuerySurface stores
when the version allows querying it at all. -/
def init_egl_surface_pixel_aspect (eglMajor eglMinor : Nat) (reported : Int) : Int :=
  if eglMajor == 1 && eglMinor < 2 then
    (EGL_DISPLAY_SCALING : Int)
  else if reported == EGL_UNKNOWN || reported < EGL_SANE_DAR_MIN ||
      reported > EGL_SANE_DAR_MAX then
    (EGL_DISPLAY_SCALING : Int)
  else
    reported

/-- A destination-surface rectangle (GstVideoRectangle).  The modelled
geometry paths only produce coordinates inside the surface, so Nat
fields suffice. -/
structure GstVideoRectangle where
  x : Nat
  y : Nat
  w : Nat
  h : Nat
  deriving DecidableEq, Repr

/-- Modelled from the documented contract of gst_util_uint64_scale_int
(GStreamer core, outside this repository): val * num / denom with the
intermediate product taken at full precision and the division rounding
down. -/
def gst_util_uint64_scale_int (val num den : Nat) : Nat :=
  val * num / den

/-- Modelled from the documented contract of
gst_video_calculate_display_ratio (gst-plugins-base, outside this
repository): the display aspect ratio of a video_width x video_height
frame with pixel aspect par_n/par_d on a display with pixel aspect
display_par_n/display_par_d is
video_width * par_n * display_par_d : video_height * par_d * display_par_n,
returned reduced to lowest terms; the call fails (none) when a term is
zero. -/
def gst_video_calculate_display_ratio_nd (videoW videoH parN parD
    displayParN displayParD : Nat) : Option (Nat × Nat) :=
  let num := videoW * parN * displayParD
  let den := videoH * parD * displayParN
  if num = 0 ∨ den = 0 then none
  else some (num / Nat.gcd num den, den / Nat.gcd num den)

/-- Modelled from the spec: gst_video_sink_center_rect with scaling
enabled is provided by gst-plugins-base, outside this repository; the
spec describes it as scaling the source rectangle to the destination
surface preserving the source aspect ratio and centering it, clipped to
the surface bounds.  Exact rational arithmetic replaces the library's
floating point. -/
def gst_video_sink_center_rect (src dst : GstVideoRectangle) : GstVideoRectangle :=
  if src.w * dst.h > src.h * dst.w then
    let rh := src.h * dst.w / src.w
    { x := 0, y := (dst.h - rh) / 2, w := dst.w, h := rh }
  else
    let rw := src.w * dst.h / src.h
    { x := (dst.w - rw) / 2, y := 0, w := rw, h := dst.h }

/-- The scaled-frame rectangle derivation of
gst_eglglessink_render_and_display (gsteglglessink.c:1868-1894): compute
the display aspect ratio dar_n/dar_d from frame size, frame pixel
aspect and display pixel aspect (the latter against the
EGL_DISPLAY_SCALING unit); keep the height when h divides dar_d evenly,
else keep the width when w divides dar_n evenly, else default to the
height-preserving branch; on a failed ratio computation fall back to the
unscaled frame.  The x and y fields are not read by the subsequent
centering and are 0 here. -/
def gst_eglglessink_scaled_frame (w h parN parD displayPar : Nat) :
    GstVideoRectangle :=
  match gst_video_calculate_display_ratio_nd w h parN parD displayPar
      EGL_DISPLAY_SCALING with
  | none => { x := 0, y := 0, w := w, h := h }
  | some (darN, darD) =>
    if h % darD = 0 then
      { x := 0, y := 0, w := gst_util_uint64_scale_int h darN darD, h := h }
    else if w % darN = 0 then
      { x := 0, y := 0, w := w, h := gst_util_uint64_scale_int w darD darN }
    else
      { x := 0, y := 0, w := gst_util_uint64_scale_int h darN darD, h := h }

/-- The default display-region computation of
gst_eglglessink_render_and_display (gsteglglessink.c:1861-1900), run
when no caller-set region is in force: fill the whole surface when
aspect correction is disabled, otherwise center the scaled frame within
the surface. -/
def gst_eglglessink_default_display_region (w h parN parD displayPar
    surfaceW surfaceH : Nat) (forceAspect : Bool) : GstVideoRectangle :=
  if !forceAspect then
    { x := 0, y := 0, w := surfaceW, h := surfaceH }
  else
    gst_video_sink_center_rect
      (gst_eglglessink_scaled_frame w h parN parD displayPar)
      { x := 0, y := 0, w := surfaceW, h := surfaceH }

/-- Observable resource-lifecycle events of the Surface/Resource Manager,
recorded by the embeddings below in invocation order. -/
inductive SinkEvent where
  | wiped
  | choseConfig
  | windowCreated
  | surfaceInited
  | threadStarted
  deriving DecidableEq, Repr

/-- The sink-state fields the modelled functions read and write
(GstEglGlesSink, gsteglglessink.h).  Default values are the ones
gst_eglglessink_init installs (gsteglglessink.c:2350). -/
structure GstEglGlesSinkState where
  haveWindow : Bool := false
  haveSurface : Bool := false
  haveVbo : Bool := false
  haveTexture : Bool := false
  eglStarted : Bool := false
  usingOwnWindow : Bool := false
  createWindow : Bool := true
  forceAspect : Bool := true
  parN : Nat := 1
  parD : Nat := 1
  lastFlow : GstFlowReturn := GstFlowReturn.wrongState
  queueFlushing : Bool := true
  threadRunning : Bool := false
  supportedFmts : List GstEglGlesImageFmt := []
  configuredCaps : Option GstCaps := none
  selectedFmt : Option GstEglGlesImageFmt := none
  format : Option GstVideoFormat := none
  width : Nat := 0
  height : Nat := 0
  displayRegion : GstVideoRectangle := { x := 0, y := 0, w := 0, h := 0 }
  deriving DecidableEq, Repr

/-- Embedding of gst_eglglessink_reset_display_region
(gsteglglessink.c:705): zero the display region's width and height under
the object lock. -/
def gst_eglglessink_reset_display_region (s : GstEglGlesSinkState) :
    GstEglGlesSinkState :=
  { s with displayRegion := { s.displayRegion with w := 0, h := 0 } }

/-- Embedding of gst_eglglessink_wipe_eglglesctx (gsteglglessink.c:643) at
the state level: delete buffers, textures, shader programs, detach the
context and destroy surface and context, then reset the display region.
The freed GL handles are not tracked individually; the have_* flags and
the region are. -/
def gst_eglglessink_wipe_eglglesctx (s : GstEglGlesSinkState) :
    GstEglGlesSinkState :=
  gst_eglglessink_reset_display_region
    { s with haveVbo := false, haveTexture := false, haveSurface := false }

/-- Oracles for the fallible native calls gst_eglglessink_configure_caps
makes: eglChooseConfig plus eglCreateContext
(gst_eglglessink_choose_config), platform_create_native_window
(gst_eglglessink_create_window) and the whole EGL surface and shader
setup (gst_eglglessink_init_egl_surface). -/
structure CfgOracles where
  chooseConfigOk : Bool
  createWindowOk : Bool
  initSurfaceOk : Bool
  deriving DecidableEq, Repr

/-- The rebuild tail of gst_eglglessink_configure_caps
(gsteglglessink.c:2067-2104), entered when no caps were configured or
after the incompatible-caps teardown: choose an EGL config and context,
record the configured caps, create an internal window when none was
supplied, and initialize the EGL surface (shaders and textures included)
when there is none. -/
def configure_caps_rebuild (s : GstEglGlesSinkState) (caps : GstCaps)
    (o : CfgOracles) (evts : List SinkEvent) :
    Bool × GstEglGlesSinkState × List SinkEvent :=
  let evts := evts ++ [SinkEvent.choseConfig]
  if ¬ o.chooseConfigOk then (false, s, evts)
  else
    let s := { s with configuredCaps := some caps }
    let afterWindow : Option (GstEglGlesSinkState × List SinkEvent) :=
      if ¬ s.haveWindow then
        if s.createWindow && o.createWindowOk then
          some ({ s with usingOwnWindow := true, haveWindow := true },
            evts ++ [SinkEvent.windowCreated])
        else none
      else some (s, evts)
    match afterWindow with
    | none => (false, s, evts)
    | some (s, evts) =>
      if ¬ s.haveSurface then
        let evts := evts ++ [SinkEvent.surfaceInited]
        if ¬ o.initSurfaceOk then (false, s, evts)
        else (true, { s with haveSurface := true, haveTexture := true }, evts)
      else (true, s, evts)

/-- Embedding of gst_eglglessink_configure_caps (gsteglglessink.c:2015).
Parsing succeeds when the caps are fixed (single format, fixed
dimensions); a missing pixel-aspect field falls back to 1/1 without
failing the call.  With caps already configured, compatible new caps
succeed immediately with no resource events; incompatible new caps run
one full context wipe and then the rebuild tail. -/
def gst_eglglessink_configure_caps (s : GstEglGlesSinkState) (caps : GstCaps)
    (o : CfgOracles) : Bool × GstEglGlesSinkState × List SinkEvent :=
  match caps.formats, caps.width, caps.height with
  | [fmt], some w, some h =>
    let par := caps.par.getD (1, 1)
    match gst_eglglessink_get_compat_format_from_caps s.supportedFmts caps with
    | none => (false, s, [])
    | some format =>
      let s := { s with selectedFmt := some format, format := some fmt,
                        parN := par.1, parD := par.2, width := w, height := h }
      match s.configuredCaps with
      | some cc =>
        if gst_caps_can_intersect caps cc then (true, s, [])
        else
          let s := gst_eglglessink_wipe_eglglesctx s
          let s := { s with configuredCaps := none }
          configure_caps_rebuild s caps o [SinkEvent.wiped]
      | none => configure_caps_rebuild s caps o []
  | _, _, _ => (false, s, [])

/-- Oracles for the fallible native calls on the open/start path:
platform_wrapper_init, the EGL display bring-up
(gst_eglglessink_init_egl_display), per-config satisfiability
(eglChooseConfig probes), whether the xOverlay
prepare_xwindow_id request yields an externally supplied window, and
thread creation. -/
structure EglOracles where
  platformInitOk : Bool
  displayInitOk : Bool
  configSatisfiable : EglImageFmtKind → Bool
  externalWindowProvided : Bool
  threadCreateOk : Bool

/-- Embedding of egl_init (gsteglglessink.c:552): init the platform
wrapper and the EGL display, fill the supported-format catalog, and fail
when the catalog ends up empty; on success mark egl_started. -/
def egl_init (o : EglOracles) (s : GstEglGlesSinkState) :
    Bool × GstEglGlesSinkState :=
  if ¬ o.platformInitOk then (false, s)
  else if ¬ o.displayInitOk then (false, s)
  else
    let filled := gst_eglglessink_fill_supported_fbuffer_configs o.configSatisfiable
    let s := { s with supportedFmts := filled.1 }
    if filled.2 = 0 then (false, s)
    else (true, { s with eglStarted := true })

/-- Embedding of gst_eglglessink_open (gsteglglessink.c:2139). -/
def gst_eglglessink_open (o : EglOracles) (s : GstEglGlesSinkState) :
    Bool × GstEglGlesSinkState :=
  egl_init o s

/-- Embedding of gst_eglglessink_close (gsteglglessink.c:2149): terminate
the display, drop the catalog, clear egl_started. -/
def gst_eglglessink_close (s : GstEglGlesSinkState) :
    Bool × GstEglGlesSinkState :=
  (true, { s with selectedFmt := none, supportedFmts := [], eglStarted := false })

/-- Embedding of gst_eglglessink_start (gsteglglessink.c:714): require a
completed egl_init, ask for an external window, bail out when no window
exists and internal creation is disabled, reset the display region,
reset last_flow to OK, unflush the queue and spawn the render thread. -/
def gst_eglglessink_start (o : EglOracles) (s : GstEglGlesSinkState) :
    Bool × GstEglGlesSinkState × List SinkEvent :=
  if ¬ s.eglStarted then (false, s, [])
  else
    let s :=
      if ¬ s.haveWindow && o.externalWindowProvided then
        { s with haveWindow := true }
      else s
    if ¬ s.haveWindow && ¬ s.createWindow then (false, s, [])
    else
      let s := gst_eglglessink_reset_display_region s
      let s := { s with lastFlow := GstFlowReturn.ok, queueFlushing := false }
      if ¬ o.threadCreateOk then (false, s, [])
      else (true, { s with threadRunning := true }, [SinkEvent.threadStarted])

/-- Embedding of gst_eglglessink_stop (gsteglglessink.c:762): flush the
queue, wake waiters, join the render thread, force last_flow to
WRONG_STATE and destroy an internally created window. -/
def gst_eglglessink_stop (s : GstEglGlesSinkState) :
    Bool × GstEglGlesSinkState :=
  let s := { s with queueFlushing := true, threadRunning := false,
                    lastFlow := GstFlowReturn.wrongState }
  let s :=
    if s.usingOwnWindow then { s with haveWindow := false, usingOwnWindow := false }
    else s
  (true, s)

/-- The element state transitions gst_eglglessink_change_state
distinguishes; every other transition takes the default branches. -/
inductive GstStateChange where
  | nullToReady
  | readyToPaused
  | pausedToPlaying
  | playingToPaused
  | pausedToReady
  | readyToNull
  deriving DecidableEq, Repr

/-- Result of a state change (GstStateChangeReturn, without the async
values the base class may add). -/
inductive GstStateChangeReturn where
  | success
  | failure
  deriving DecidableEq, Repr

/-- Embedding of gst_eglglessink_change_state (gsteglglessink.c:2167):
open on NULL-to-READY and start on READY-to-PAUSED before chaining up,
close on READY-to-NULL and stop on PAUSED-to-READY after chaining up;
any failure aborts with GST_STATE_CHANGE_FAILURE. -/
def gst_eglglessink_change_state (o : EglOracles) (s : GstEglGlesSinkState)
    (t : GstStateChange) :
    GstStateChangeReturn × GstEglGlesSinkState × List SinkEvent :=
  match t with
  | GstStateChange.nullToReady =>
    let r := gst_eglglessink_open o s
    if ¬ r.1 then (GstStateChangeReturn.failure, r.2, [])
    else (GstStateChangeReturn.success, r.2, [])
  | GstStateChange.readyToPaused =>
    let r := gst_eglglessink_start o s
    if ¬ r.1 then (GstStateChangeReturn.failure, r.2.1, r.2.2)
    else (GstStateChangeReturn.success, r.2.1, r.2.2)
  | GstStateChange.readyToNull =>
    let r := gst_eglglessink_close s
    if ¬ r.1 then (GstStateChangeReturn.failure, r.2, [])
    else (GstStateChangeReturn.success, r.2, [])
  | GstStateChange.pausedToReady =>
    let r := gst_eglglessink_stop s
    if ¬ r.1 then (GstStateChangeReturn.failure, r.2, [])
    else (GstStateChangeReturn.success, r.2, [])
  | _ => (GstStateChangeReturn.success, s, [])

/-- The fragment-shader variants the resource build can install
(gsteglglessink.c:182-296).  The reorder, packed-YUV and NV12/NV21
variants carry the swizzle characters substituted into the shader
source by g_strdup_printf. -/
inductive FragShaderVariant where
  | copy
  | reorder (a b c : Char)
  | ayuv
  | packedYuv (y u v : Char)
  | planarYuv
  | nv12nv21 (u v : Char)
  deriving DecidableEq, Repr

/-- Embedding of the fragment-shader and texture-count selection switch of
gst_eglglessink_init_egl_surface (gsteglglessink.c:1232-1328): the
chosen shader variant and the value stored into n_textures. -/
def init_egl_surface_shader : GstVideoFormat → FragShaderVariant × Nat
  | GstVideoFormat.AYUV => (FragShaderVariant.ayuv, 1)
  | GstVideoFormat.Y444 => (FragShaderVariant.planarYuv, 3)
  | GstVideoFormat.I420 => (FragShaderVariant.planarYuv, 3)
  | GstVideoFormat.YV12 => (FragShaderVariant.planarYuv, 3)
  | GstVideoFormat.Y42B => (FragShaderVariant.planarYuv, 3)
  | GstVideoFormat.Y41B => (FragShaderVariant.planarYuv, 3)
  | GstVideoFormat.YUY2 => (FragShaderVariant.packedYuv 'r' 'g' 'a', 2)
  | GstVideoFormat.YVYU => (FragShaderVariant.packedYuv 'r' 'a' 'g', 2)
  | GstVideoFormat.UYVY => (FragShaderVariant.packedYuv 'a' 'r' 'b', 2)
  | GstVideoFormat.NV12 => (FragShaderVariant.nv12nv21 'r' 'a', 2)
  | GstVideoFormat.NV21 => (FragShaderVariant.nv12nv21 'a' 'r', 2)
  | GstVideoFormat.BGR => (FragShaderVariant.reorder 'b' 'g' 'r', 1)
  | GstVideoFormat.BGRx => (FragShaderVariant.reorder 'b' 'g' 'r', 1)
  | GstVideoFormat.BGRA => (FragShaderVariant.reorder 'b' 'g' 'r', 1)
  | GstVideoFormat.xRGB => (FragShaderVariant.reorder 'g' 'b' 'a', 1)
  | GstVideoFormat.ARGB => (FragShaderVariant.reorder 'g' 'b' 'a', 1)
  | GstVideoFormat.xBGR => (FragShaderVariant.reorder 'a' 'b' 'g', 1)
  | GstVideoFormat.ABGR => (FragShaderVariant.reorder 'a' 'b' 'g', 1)
  | GstVideoFormat.RGB => (FragShaderVariant.copy, 1)
  | GstVideoFormat.RGBx => (FragShaderVariant.copy, 1)
  | GstVideoFormat.RGBA => (FragShaderVariant.copy, 1)
  | GstVideoFormat.RGB16 => (FragShaderVariant.copy, 1)

/-- GST_ROUND_UP_2: round up to the next multiple of 2. -/
def GST_ROUND_UP_2 (n : Nat) : Nat := (n + 1) / 2 * 2

/-- GST_ROUND_UP_4: round up to the next multiple of 4. -/
def GST_ROUND_UP_4 (n : Nat) : Nat := (n + 3) / 4 * 4

/-- Modelled from the documented contract of
gst_video_format_get_component_width (gst-plugins-base, outside this
repository), restricted to the formats and components the upload path
uses: chroma components of 4:2:0 and 4:2:2 formats span half the
(rounded-up) width, of Y41B a quarter, and everything else the full
width. -/
def gst_video_format_get_component_width (f : GstVideoFormat) (component w : Nat) :
    Nat :=
  match f, component with
  | GstVideoFormat.I420, c + 1 => let _ := c; GST_ROUND_UP_2 w / 2
  | GstVideoFormat.YV12, c + 1 => let _ := c; GST_ROUND_UP_2 w / 2
  | GstVideoFormat.NV12, c + 1 => let _ := c; GST_ROUND_UP_2 w / 2
  | GstVideoFormat.NV21, c + 1 => let _ := c; GST_ROUND_UP_2 w / 2
  | GstVideoFormat.Y42B, c + 1 => let _ := c; GST_ROUND_UP_2 w / 2
  | GstVideoFormat.Y41B, c + 1 => let _ := c; GST_ROUND_UP_4 w / 4
  | _, _ => w

/-- Modelled from the documented contract of
gst_video_format_get_component_height (gst-plugins-base, outside this
repository), restricted likewise: chroma components of 4:2:0 formats
span half the (rounded-up) height, everything else the full height. -/
def gst_video_format_get_component_height (f : GstVideoFormat) (component h : Nat) :
    Nat :=
  match f, component with
  | GstVideoFormat.I420, c + 1 => let _ := c; GST_ROUND_UP_2 h / 2
  | GstVideoFormat.YV12, c + 1 => let _ := c; GST_ROUND_UP_2 h / 2
  | GstVideoFormat.NV12, c + 1 => let _ := c; GST_ROUND_UP_2 h / 2
  | GstVideoFormat.NV21, c + 1 => let _ := c; GST_ROUND_UP_2 h / 2
  | _, _ => h

/-- The GL texture formats the upload path passes to glTexImage2D. -/
inductive GLTexFormat where
  | rgb
  | rgba
  | luminance
  | luminanceAlpha
  deriving DecidableEq, Repr

/-- One glTexImage2D upload: texture format and dimensions. -/
structure TexUpload where
  fmt : GLTexFormat
  w : Nat
  h : Nat
  deriving DecidableEq, Repr

/-- Embedding of the per-frame texture upload switch of
gst_eglglessink_render_and_display (gsteglglessink.c:1719-1845): the
sequence of glTexImage2D calls (texture format and dimensions, in
texture-unit order) issued for a buffer of video format `vfmt` matched
to hardware target `imgfmt`, with sink dimensions w x h.  Byte offsets
into the source buffer are not modelled; sizes and formats are. -/
def render_and_display_uploads (imgfmt : EglImageFmtKind) (vfmt : GstVideoFormat)
    (w h : Nat) : List TexUpload :=
  match imgfmt with
  | EglImageFmtKind.rgb888 => [{ fmt := GLTexFormat.rgb, w := w, h := h }]
  | EglImageFmtKind.rgb565 => [{ fmt := GLTexFormat.rgb, w := w, h := h }]
  | EglImageFmtKind.rgba8888 =>
    match vfmt with
    | GstVideoFormat.Y444 | GstVideoFormat.I420 | GstVideoFormat.YV12
    | GstVideoFormat.Y42B | GstVideoFormat.Y41B =>
      [{ fmt := GLTexFormat.luminance,
         w := gst_video_format_get_component_width vfmt 0 w,
         h := gst_video_format_get_component_height vfmt 0 h },
       { fmt := GLTexFormat.luminance,
         w := gst_video_format_get_component_width vfmt 1 w,
         h := gst_video_format_get_component_height vfmt 1 h },
       { fmt := GLTexFormat.luminance,
         w := gst_video_format_get_component_width vfmt 2 w,
         h := gst_video_format_get_component_height vfmt 2 h }]
    | GstVideoFormat.YUY2 | GstVideoFormat.YVYU | GstVideoFormat.UYVY =>
      [{ fmt := GLTexFormat.luminanceAlpha, w := w, h := h },
       { fmt := GLTexFormat.rgba, w := GST_ROUND_UP_2 w / 2, h := h }]
    | GstVideoFormat.NV12 | GstVideoFormat.NV21 =>
      [{ fmt := GLTexFormat.luminance,
         w := gst_video_format_get_component_width vfmt 0 w,
         h := gst_video_format_get_component_height vfmt 0 h },
       { fmt := GLTexFormat.luminanceAlpha,
         w := gst_video_format_get_component_width vfmt 1 w,
         h := gst_video_format_get_component_height vfmt 1 h }]
    | _ => [{ fmt := GLTexFormat.rgba, w := w, h := h }]

/-- Acquisitions and releases of the sink's object lock
(GST_OBJECT_LOCK / GST_OBJECT_UNLOCK), in program order. -/
inductive LockOp where
  | lock
  | unlock
  deriving DecidableEq, Repr

/-- The object-lock operations gst_eglglessink_reset_display_region
performs (gsteglglessink.c:705-712): one acquisition, one release. -/
def reset_display_region_lock_trace : List LockOp :=
  [LockOp.lock, LockOp.unlock]

/-- The object-lock operations gst_eglglessink_set_render_rectangle
performs (gsteglglessink.c:1637-1661): an acquisition on entry, then on
the clear-sentinel path (width = height = -1) the nested operations of
gst_eglglessink_reset_display_region, and on the set path an explicit
nested acquisition and release; the function returns without releasing
the outer acquisition. -/
def set_render_rectangle_lock_trace (width height : Int) : List LockOp :=
  [LockOp.lock] ++
    (if width = -1 ∧ height = -1 then reset_display_region_lock_trace
     else [LockOp.lock, LockOp.unlock])

/-- Validity of a lock-operation trace against a non-recursive mutex,
starting from `held` outstanding acquisitions by the calling thread: the
thread must never re-acquire while holding (GMutex is non-recursive;
doing so deadlocks or is undefined), never release without holding, and
end with no outstanding acquisition. -/
def lockTraceBalanced : List LockOp → Nat → Bool
  | [], held => held == 0
  | LockOp.lock :: rest, 0 => lockTraceBalanced rest 1
  | LockOp.lock :: _, _ + 1 => false
  | LockOp.unlock :: rest, held + 1 => lockTraceBalanced rest held
  | LockOp.unlock :: _, 0 => false

/-- A concrete render-state at loop entry: caps 0 configured, last result
OK. -/
def c2_state0 : RenderState :=
  { configuredCaps := some 0, lastFlow := GstFlowReturn.ok }

/-- A concrete visible item whose rendering fails with ERROR. -/
def c2_bad_item : QueueItem :=
  { buf := some 0, configureOk := true, renderResult := GstFlowReturn.error }

/-- A concrete well-behaved visible item queued behind the failing one. -/
def c2_next_item : QueueItem :=
  { buf := some 0, configureOk := true, renderResult := GstFlowReturn.ok }

/-- Concrete already-configured caps: fixed 640x480 I420. -/
def c4_configured_caps : GstCaps :=
  { formats := [GstVideoFormat.I420], width := some 640, height := some 480,
    par := some (1, 1) }

/-- Concrete incompatible new caps: fixed 320x240 AYUV. -/
def c4_new_caps : GstCaps :=
  { formats := [GstVideoFormat.AYUV], width := some 320, height := some 240,
    par := some (1, 1) }

/-- A concrete sink state with resources built and caps configured. -/
def c4_state : GstEglGlesSinkState :=
  { haveWindow := true, haveSurface := true, haveTexture := true,
    haveVbo := true, eglStarted := true,
    supportedFmts := [eglglessink_RGBA8888_entry],
    configuredCaps := some c4_configured_caps }

/-- Oracles under which every native call of the rebuild succeeds. -/
def c4_oracles : CfgOracles :=
  { chooseConfigOk := true, createWindowOk := true, initSurfaceOk := true }

/-- Oracles whose eglChooseConfig probe reports no config satisfiable. -/
def c6_oracles : EglOracles :=
  { platformInitOk := true, displayInitOk := true,
    configSatisfiable := fun _ => false,
    externalWindowProvided := false, threadCreateOk := true }

/-- C1: a push to the Frame Handoff Queue (gst_eglglessink_queue_buffer)
returns WRONG_STATE without waiting when the queue is flushing; a
non-flushing push of the empty redraw sentinel returns OK without
blocking; a non-flushing push of a visible frame blocks on the render
condition and returns the shared last-result field as this frame's
result. -/
theorem claim_C1_queue_buffer_contract :
    ∀ (lastFlow : GstFlowReturn) (visible : Bool),
      gst_eglglessink_queue_buffer true visible lastFlow =
        { result := GstFlowReturn.wrongState, waited := false } ∧
      gst_eglglessink_queue_buffer false false lastFlow =
        { result := GstFlowReturn.ok, waited := false } ∧
      gst_eglglessink_queue_buffer false true lastFlow =
        { result := lastFlow, waited := true } := by
  intro lastFlow visible
  refine ⟨?_, rfl, rfl⟩
  cases visible <;> rfl

/-- C10: whenever the render thread's loop exits, the shared last_flow
field holds a non-OK value: render_thread_func forces WRONG_STATE
whenever the loop left the field at OK and keeps the recorded failure
otherwise, for every starting state and item sequence. -/
theorem claim_C10_last_flow_non_ok_on_exit :
    ∀ (s : RenderState) (items : List QueueItem),
      (render_thread_func s items).1.lastFlow ≠ GstFlowReturn.ok ∧
      (render_thread_func s items).1.lastFlow =
        (if (render_thread_loop s items).1.lastFlow = GstFlowReturn.ok
         then GstFlowReturn.wrongState
         else (render_thread_loop s items).1.lastFlow) := by
  intro s items
  refine ⟨?_, rfl⟩
  simp only [render_thread_func]
  split
  · simp
  · assumption

/-- C9: gst_eglglessink_set_render_rectangle does not keep the sink's
non-recursive object lock balanced; on both the clear-sentinel path and
the set path it re-acquires the lock while already holding it and
returns with the outer acquisition outstanding, while
gst_eglglessink_reset_display_region on its own is balanced. -/
theorem claim_C9_set_render_rectangle_lock_imbalance :
    lockTraceBalanced (set_render_rectangle_lock_trace (-1) (-1)) 0 = false ∧
    lockTraceBalanced (set_render_rectangle_lock_trace 50 60) 0 = false ∧
    lockTraceBalanced reset_display_region_lock_trace 0 = true := by
  decide

/-- C8: the display pixel aspect stored at EGL surface creation equals the
backend-reported value exactly when the EGL version is at least 1.2 and
the report is known (not EGL_UNKNOWN) and within
[EGL_SANE_DAR_MIN, EGL_SANE_DAR_MAX]; in every other case it equals
EGL_DISPLAY_SCALING, the 1:1 default. -/
theorem claim_C8_display_pixel_aspect_sanitized :
    ∀ (eglMajor eglMinor : Nat) (reported : Int), 1 ≤ eglMajor →
      (((2 ≤ eglMajor ∨ (eglMajor = 1 ∧ 2 ≤ eglMinor)) ∧
          reported ≠ EGL_UNKNOWN ∧ EGL_SANE_DAR_MIN ≤ reported ∧
          reported ≤ EGL_SANE_DAR_MAX) →
        init_egl_surface_pixel_aspect eglMajor eglMinor reported = reported) ∧
      ((¬ ((2 ≤ eglMajor ∨ (eglMajor = 1 ∧ 2 ≤ eglMinor)) ∧
          reported ≠ EGL_UNKNOWN ∧ EGL_SANE_DAR_MIN ≤ reported ∧
          reported ≤ EGL_SANE_DAR_MAX)) →
        init_egl_surface_pixel_aspect eglMajor eglMinor reported =
          (EGL_DISPLAY_SCALING : Int)) := by
  intro eglMajor eglMinor reported hmaj
  have hMIN : EGL_SANE_DAR_MIN = 1000 := by decide
  have hMAX : EGL_SANE_DAR_MAX = 100000 := by decide
  by_cases hv : (eglMajor == 1 && decide (eglMinor < 2)) = true
  · obtain ⟨hM, hm⟩ : eglMajor = 1 ∧ eglMinor < 2 := by
      simpa only [Bool.and_eq_true, beq_iff_eq, decide_eq_true_eq] using hv
    have hf : init_egl_surface_pixel_aspect eglMajor eglMinor reported =
        (EGL_DISPLAY_SCALING : Int) := by
      unfold init_egl_surface_pixel_aspect
      rw [if_pos hv]
    refine ⟨?_, fun _ => hf⟩
    rintro ⟨hver, -, -, -⟩
    exfalso
    rcases hver with h | ⟨-, h⟩ <;> omega
  · have hMm : ¬ (eglMajor = 1 ∧ eglMinor < 2) := by
      simpa only [Bool.and_eq_true, beq_iff_eq, decide_eq_true_eq] using hv
    by_cases hr : (reported == EGL_UNKNOWN || decide (reported < EGL_SANE_DAR_MIN) ||
        decide (reported > EGL_SANE_DAR_MAX)) = true
    · have hrp : reported = EGL_UNKNOWN ∨ reported < EGL_SANE_DAR_MIN ∨
          reported > EGL_SANE_DAR_MAX := by
        simpa only [Bool.or_eq_true, beq_iff_eq, decide_eq_true_eq, or_assoc]
          using hr
      have hf : init_egl_surface_pixel_aspect eglMajor eglMinor reported =
          (EGL_DISPLAY_SCALING : Int) := by
        unfold init_egl_surface_pixel_aspect
        rw [if_neg hv, if_pos hr]
      refine ⟨?_, fun _ => hf⟩
      rintro ⟨-, hunk, hlo, hhi⟩
      exfalso
      rw [hMIN] at hlo hrp
      rw [hMAX] at hhi hrp
      rcases hrp with h | h | h
      · exact hunk h
      · omega
      · omega
    · have hrp : ¬ (reported = EGL_UNKNOWN ∨ reported < EGL_SANE_DAR_MIN ∨
          reported > EGL_SANE_DAR_MAX) := by
        simpa only [Bool.or_eq_true, beq_iff_eq, decide_eq_true_eq, or_assoc]
          using hr
      have hf : init_egl_surface_pixel_aspect eglMajor eglMinor reported =
          reported := by
        unfold init_egl_surface_pixel_aspect
        rw [if_neg hv, if_neg hr]
      refine ⟨fun _ => hf, ?_⟩
      intro hneg
      exfalso
      apply hneg
      push_neg at hrp
      obtain ⟨h1, h2, h3⟩ := hrp
      refine ⟨?_, h1, h2, h3⟩
      by_cases hM : eglMajor = 1
      · refine Or.inr ⟨hM, ?_⟩
        by_contra hm2
        exact hMm ⟨hM, by omega⟩
      · exact Or.inl (by omega)

/-- Witness for C8 at version 1.4 with a plausible report, and at version
1.1 where the default must be used. -/
theorem claim_C8_witness :
    init_egl_surface_pixel_aspect 1 4 5000 = 5000 ∧
    init_egl_surface_pixel_aspect 1 1 5000 = (EGL_DISPLAY_SCALING : Int) :=
  ⟨(claim_C8_display_pixel_aspect_sanitized 1 4 5000 (by decide)).1
      ⟨Or.inr ⟨rfl, by decide⟩, by decide, by decide, by decide⟩,
   (claim_C8_display_pixel_aspect_sanitized 1 1 5000 (by decide)).2
      (by decide)⟩

/-- Helper: the loop-continuation flag of one render-thread step is true
exactly when the step leaves last_flow at OK. -/
theorem render_thread_step_cont_iff (s : RenderState) (it : QueueItem) :
    (render_thread_step s it).2.2 = true ↔
      (render_thread_step s it).1.lastFlow = GstFlowReturn.ok := by
  unfold render_thread_step
  split
  · split
    · simp
    · simp
  · by_cases hc : s.configuredCaps.isSome <;> simp [hc]

/-- Helper: one render-thread step broadcasts the render condition once
for an item carrying a buffer and never for the redraw sentinel. -/
theorem render_thread_step_broadcasts (s : RenderState) (it : QueueItem) :
    (render_thread_step s it).2.1 = (if it.buf.isSome then 1 else 0) := by
  unfold render_thread_step
  split
  · rename_i heq
    split <;> simp [heq]
  · rename_i heq
    simp [heq]

/-- Counterexample to C2 as stated: after the render thread loop has
exited on a recorded ERROR (popping one of the two queued items and
leaving the second unconsumed), a subsequent push to the queue does NOT
fail as long as the queue has not been marked flushing:
gst_data_queue_push accepts it, and the producer then observes the
recorded ERROR through the shared last-result field rather than a
rejection.  Moreover a redraw-sentinel item whose rendering records
ERROR is not acknowledged at all: the step broadcasts zero times. -/
theorem claim_C2_counterexample :
    (render_thread_loop c2_state0 [c2_bad_item, c2_next_item]).2.1 = 1 ∧
    gst_data_queue_push false = true ∧
    gst_eglglessink_queue_buffer false true
        (render_thread_func c2_state0 [c2_bad_item, c2_next_item]).1.lastFlow =
      { result := GstFlowReturn.error, waited := true } ∧
    (render_thread_step c2_state0
        { buf := none, configureOk := true,
          renderResult := GstFlowReturn.error }).1.lastFlow =
      GstFlowReturn.error ∧
    (render_thread_step c2_state0
        { buf := none, configureOk := true,
          renderResult := GstFlowReturn.error }).2.1 = 0 := by
  decide

/-- C2 (amended): once a render-thread step records a non-OK result for
the popped item, the thread broadcasts the acknowledgment exactly when
the item carries a buffer, and the loop exits having popped only that
item, leaving any queued remainder unconsumed; after the exit the
recorded result is non-OK, a push is rejected only when the queue is
flushing, and an accepted visible-frame push observes the recorded
non-OK result. -/
theorem claim_C2_error_exits_loop (s : RenderState) (it : QueueItem)
    (rest : List QueueItem)
    (h : (render_thread_step s it).1.lastFlow ≠ GstFlowReturn.ok) :
    render_thread_loop s (it :: rest) =
      ((render_thread_step s it).1, 1, (render_thread_step s it).2.1) ∧
    (render_thread_step s it).2.1 = (if it.buf.isSome then 1 else 0) ∧
    (render_thread_func s (it :: rest)).1.lastFlow =
      (render_thread_step s it).1.lastFlow ∧
    gst_eglglessink_queue_buffer true true
        (render_thread_func s (it :: rest)).1.lastFlow =
      { result := GstFlowReturn.wrongState, waited := false } ∧
    gst_eglglessink_queue_buffer false true
        (render_thread_func s (it :: rest)).1.lastFlow =
      { result := (render_thread_step s it).1.lastFlow, waited := true } := by
  have hcont : (render_thread_step s it).2.2 = false := by
    rcases Bool.eq_false_or_eq_true (render_thread_step s it).2.2 with hc | hc
    · exact absurd ((render_thread_step_cont_iff s it).mp hc) h
    · exact hc
  have hloop : render_thread_loop s (it :: rest) =
      ((render_thread_step s it).1, 1, (render_thread_step s it).2.1) := by
    simp only [render_thread_loop]
    rw [hcont]
    simp
  have hfunc : (render_thread_func s (it :: rest)).1.lastFlow =
      (render_thread_step s it).1.lastFlow := by
    simp only [render_thread_func]
    rw [hloop]
    simp [if_neg h]
  refine ⟨hloop, render_thread_step_broadcasts s it, hfunc, ?_, ?_⟩
  · rfl
  · rw [hfunc]
    rfl

/-- Witness for C2 (amended) at the concrete failing run: the loop pops
only the failing item, broadcasts once for it, and a later visible push
is accepted (not rejected) and returns the recorded ERROR, while a push
with the queue flushing is rejected with WRONG_STATE. -/
theorem claim_C2_error_exits_loop_witness :
    render_thread_loop c2_state0 [c2_bad_item, c2_next_item] =
      ((render_thread_step c2_state0 c2_bad_item).1, 1,
        (render_thread_step c2_state0 c2_bad_item).2.1) ∧
    (render_thread_step c2_state0 c2_bad_item).2.1 =
      (if c2_bad_item.buf.isSome then 1 else 0) ∧
    (render_thread_func c2_state0 [c2_bad_item, c2_next_item]).1.lastFlow =
      (render_thread_step c2_state0 c2_bad_item).1.lastFlow ∧
    gst_eglglessink_queue_buffer true true
        (render_thread_func c2_state0 [c2_bad_item, c2_next_item]).1.lastFlow =
      { result := GstFlowReturn.wrongState, waited := false } ∧
    gst_eglglessink_queue_buffer false true
        (render_thread_func c2_state0 [c2_bad_item, c2_next_item]).1.lastFlow =
      { result := (render_thread_step c2_state0 c2_bad_item).1.lastFlow,
        waited := true } :=
  claim_C2_error_exits_loop c2_state0 c2_bad_item [c2_next_item] (by decide)

/-- C3: with aspect correction enabled and no caller-set region, the
display region comes from the documented branch order — height kept when
h divides the display-ratio denominator evenly, else width kept when w
divides the numerator evenly, else the height-preserving branch — and
the scaled rectangle is then centered within the surface; in particular
a 640x480 1:1 frame on an 800x480 1:1 surface yields the region
x=80, y=0, w=640, h=480. -/
theorem claim_C3_letterbox_branches (w h parN parD displayPar surfaceW surfaceH
    darN darD : Nat)
    (hdar : gst_video_calculate_display_ratio_nd w h parN parD displayPar
        EGL_DISPLAY_SCALING = some (darN, darD)) :
    (h % darD = 0 →
      gst_eglglessink_default_display_region w h parN parD displayPar
          surfaceW surfaceH true =
        gst_video_sink_center_rect
          { x := 0, y := 0, w := gst_util_uint64_scale_int h darN darD, h := h }
          { x := 0, y := 0, w := surfaceW, h := surfaceH }) ∧
    (h % darD ≠ 0 → w % darN = 0 →
      gst_eglglessink_default_display_region w h parN parD displayPar
          surfaceW surfaceH true =
        gst_video_sink_center_rect
          { x := 0, y := 0, w := w, h := gst_util_uint64_scale_int w darD darN }
          { x := 0, y := 0, w := surfaceW, h := surfaceH }) ∧
    (h % darD ≠ 0 → w % darN ≠ 0 →
      gst_eglglessink_default_display_region w h parN parD displayPar
          surfaceW surfaceH true =
        gst_video_sink_center_rect
          { x := 0, y := 0, w := gst_util_uint64_scale_int h darN darD, h := h }
          { x := 0, y := 0, w := surfaceW, h := surfaceH }) ∧
    gst_eglglessink_default_display_region 640 480 1 1 EGL_DISPLAY_SCALING
        800 480 true = { x := 80, y := 0, w := 640, h := 480 } := by
  refine ⟨?_, ?_, ?_, by decide⟩
  · intro hh
    unfold gst_eglglessink_default_display_region gst_eglglessink_scaled_frame
    rw [hdar]
    simp [hh]
  · intro hh hw
    unfold gst_eglglessink_default_display_region gst_eglglessink_scaled_frame
    rw [hdar]
    simp [hh, hw]
  · intro hh hw
    unfold gst_eglglessink_default_display_region gst_eglglessink_scaled_frame
    rw [hdar]
    simp [hh, hw]

/-- Witness for C3 at the spec's concrete input: the display ratio of a
640x480 1:1 frame on a 1:1 display is 4:3, the height 480 divides 3
evenly, and the height-preserving branch centered in the 800x480
surface gives x=80, y=0, w=640, h=480. -/
theorem claim_C3_letterbox_branches_witness :
    gst_eglglessink_default_display_region 640 480 1 1 EGL_DISPLAY_SCALING
        800 480 true =
      gst_video_sink_center_rect
        { x := 0, y := 0, w := gst_util_uint64_scale_int 480 4 3, h := 480 }
        { x := 0, y := 0, w := 800, h := 480 } :=
  (claim_C3_letterbox_branches 640 480 1 1 EGL_DISPLAY_SCALING 800 480 4 3
    (by decide)).1 (by decide)

/-- Helper: the catalog traversal of
gst_eglglessink_get_compat_format_from_caps returns the first list entry
whose caps can intersect the request, in the List.find sense. -/
theorem get_compat_format_eq_find (l : List GstEglGlesImageFmt) (caps : GstCaps) :
    gst_eglglessink_get_compat_format_from_caps l caps =
      l.find? (fun format => gst_caps_can_intersect caps format.caps) := by
  induction l with
  | nil => rfl
  | cons f rest ih =>
    unfold gst_eglglessink_get_compat_format_from_caps
    rw [List.find?_cons]
    by_cases hf : gst_caps_can_intersect caps f.caps
    · simp [hf]
    · simp only [Bool.not_eq_true] at hf
      simp [hf, ih]

/-- C5: the catalog is built by probing RGBA8888, RGB888, RGB565 in that
priority order, each appended only when satisfiable (the result is the
order-preserving filter of the fixed three-entry list, with the returned
count its length), and for every requested caps the match returns the
first catalog entry in insertion order whose caps can intersect the
request, or none. -/
theorem claim_C5_catalog_order_and_match (sat : EglImageFmtKind → Bool)
    (caps : GstCaps) :
    gst_eglglessink_fill_supported_fbuffer_configs sat =
      (([eglglessink_RGBA8888_entry, eglglessink_RGB888_entry,
          eglglessink_RGB565_entry].filter (fun e => sat e.fmt)),
        ([eglglessink_RGBA8888_entry, eglglessink_RGB888_entry,
          eglglessink_RGB565_entry].filter (fun e => sat e.fmt)).length) ∧
    gst_eglglessink_get_compat_format_from_caps
        (gst_eglglessink_fill_supported_fbuffer_configs sat).1 caps =
      ((gst_eglglessink_fill_supported_fbuffer_configs sat).1).find?
        (fun format => gst_caps_can_intersect caps format.caps) := by
  refine ⟨?_, get_compat_format_eq_find _ caps⟩
  cases h1 : sat EglImageFmtKind.rgba8888 <;>
    cases h2 : sat EglImageFmtKind.rgb888 <;>
      cases h3 : sat EglImageFmtKind.rgb565 <;>
        simp [gst_eglglessink_fill_supported_fbuffer_configs, h1, h2, h3,
          List.filter, eglglessink_RGBA8888_entry, eglglessink_RGB888_entry,
          eglglessink_RGB565_entry]

/-- C4: reconfiguring with caps that can intersect the configured caps
succeeds with no teardown and no rebuild event; reconfiguring with
incompatible caps (all native calls succeeding) succeeds and performs
exactly one context wipe followed by exactly one rebuild sequence:
choose config, create a window only when none exists, initialize the
surface with its shaders and textures. -/
theorem claim_C4_reconfigure_policy (s : GstEglGlesSinkState) (caps cc : GstCaps)
    (fmt : GstVideoFormat) (w h : Nat) (fm : GstEglGlesImageFmt) (o : CfgOracles)
    (hcfg : s.configuredCaps = some cc)
    (hfmts : caps.formats = [fmt]) (hw : caps.width = some w)
    (hh : caps.height = some h)
    (hcompat : gst_eglglessink_get_compat_format_from_caps s.supportedFmts caps =
      some fm) :
    (gst_caps_can_intersect caps cc = true →
      (gst_eglglessink_configure_caps s caps o).1 = true ∧
      (gst_eglglessink_configure_caps s caps o).2.2 = []) ∧
    (gst_caps_can_intersect caps cc = false → o.chooseConfigOk = true →
      o.initSurfaceOk = true →
      (s.haveWindow = true ∨ (s.createWindow = true ∧ o.createWindowOk = true)) →
      (gst_eglglessink_configure_caps s caps o).1 = true ∧
      (gst_eglglessink_configure_caps s caps o).2.2 =
        [SinkEvent.wiped, SinkEvent.choseConfig] ++
          (if s.haveWindow then [] else [SinkEvent.windowCreated]) ++
          [SinkEvent.surfaceInited]) := by
  constructor
  · intro hi
    simp [gst_eglglessink_configure_caps, hfmts, hw, hh, hcompat, hcfg, hi]
  · intro hi hcc his hwin
    by_cases hwt : s.haveWindow = true
    · simp [gst_eglglessink_configure_caps, configure_caps_rebuild,
        gst_eglglessink_wipe_eglglesctx, gst_eglglessink_reset_display_region,
        hfmts, hw, hh, hcompat, hcfg, hi, hcc, his, hwt]
    · have hwf : s.haveWindow = false := by simpa using hwt
      rcases hwin with hwo | ⟨hcw, hcwo⟩
      · exact absurd hwo hwt
      · simp [gst_eglglessink_configure_caps, configure_caps_rebuild,
          gst_eglglessink_wipe_eglglesctx, gst_eglglessink_reset_display_region,
          hfmts, hw, hh, hcompat, hcfg, hi, hcc, his, hwf, hcw, hcwo]

/-- Witness for C4 on the incompatible-caps branch at a concrete state:
switching a fully built 640x480 I420 configuration to 320x240 AYUV with
a window present performs wipe, choose-config and surface init exactly
once each and succeeds. -/
theorem claim_C4_reconfigure_policy_witness :
    (gst_eglglessink_configure_caps c4_state c4_new_caps c4_oracles).1 = true ∧
    (gst_eglglessink_configure_caps c4_state c4_new_caps c4_oracles).2.2 =
      [SinkEvent.wiped, SinkEvent.choseConfig] ++
        (if c4_state.haveWindow then [] else [SinkEvent.windowCreated]) ++
        [SinkEvent.surfaceInited] :=
  (claim_C4_reconfigure_policy c4_state c4_new_caps c4_configured_caps
      GstVideoFormat.AYUV 320 240 eglglessink_RGBA8888_entry c4_oracles
      rfl rfl rfl rfl (by decide)).2 (by decide) rfl rfl (Or.inl rfl)

/-- C6: with the backend reporting zero satisfiable hardware configs the
NULL-to-READY transition fails (egl_init fails on the empty catalog)
with no lifecycle events, leaving the render thread and window state
untouched; and the thread-start event can only ever be emitted by the
READY-to-PAUSED transition. -/
theorem claim_C6_empty_catalog_fails_open (o : EglOracles)
    (s : GstEglGlesSinkState)
    (h1 : o.configSatisfiable EglImageFmtKind.rgba8888 = false)
    (h2 : o.configSatisfiable EglImageFmtKind.rgb888 = false)
    (h3 : o.configSatisfiable EglImageFmtKind.rgb565 = false) :
    ((gst_eglglessink_change_state o s GstStateChange.nullToReady).1 =
        GstStateChangeReturn.failure ∧
      (gst_eglglessink_change_state o s GstStateChange.nullToReady).2.2 = [] ∧
      (gst_eglglessink_change_state o s
          GstStateChange.nullToReady).2.1.threadRunning = s.threadRunning ∧
      (gst_eglglessink_change_state o s
          GstStateChange.nullToReady).2.1.haveWindow = s.haveWindow) ∧
    (∀ (o' : EglOracles) (s' : GstEglGlesSinkState) (t : GstStateChange),
      SinkEvent.threadStarted ∈ (gst_eglglessink_change_state o' s' t).2.2 →
      t = GstStateChange.readyToPaused) := by
  constructor
  · by_cases hp : o.platformInitOk = true
    · by_cases hd : o.displayInitOk = true
      · simp [gst_eglglessink_change_state, gst_eglglessink_open, egl_init,
          gst_eglglessink_fill_supported_fbuffer_configs, h1, h2, h3, hp, hd]
      · have hd' : o.displayInitOk = false := by simpa using hd
        simp [gst_eglglessink_change_state, gst_eglglessink_open, egl_init,
          hp, hd']
    · have hp' : o.platformInitOk = false := by simpa using hp
      simp [gst_eglglessink_change_state, gst_eglglessink_open, egl_init, hp']
  · intro o' s' t hmem
    cases t <;> try rfl
    all_goals
      (exfalso
       simp only [gst_eglglessink_change_state] at hmem
       first
         | (split at hmem <;> simp at hmem)
         | simp at hmem)

/-- Witness for C6 at a concrete oracle where no hardware config is
satisfiable and a default-initialized sink. -/
theorem claim_C6_empty_catalog_fails_open_witness :
    (gst_eglglessink_change_state c6_oracles {} GstStateChange.nullToReady).1 =
      GstStateChangeReturn.failure :=
  ((claim_C6_empty_catalog_fails_open c6_oracles {} rfl rfl rfl).1).1

/-- Helper: half of the rounded-up-to-even value. -/
theorem round_up_2_half (n : Nat) : GST_ROUND_UP_2 n / 2 = (n + 1) / 2 := by
  unfold GST_ROUND_UP_2
  omega

/-- Helper: a quarter of the rounded-up-to-multiple-of-4 value. -/
theorem round_up_4_quarter (n : Nat) : GST_ROUND_UP_4 n / 4 = (n + 3) / 4 := by
  unfold GST_ROUND_UP_4
  omega

/-- C7: the resource build selects the fragment shader and texture plane
count per pixel format exactly as claimed — direct copy with 1 texture
for RGB/RGBx/RGBA/RGB16, channel reorder with 1 for the BGR, xRGB/ARGB
and xBGR/ABGR groups, AYUV matrix with 1, planar YUV with 3 for
Y444/I420/YV12/Y42B/Y41B, packed YUV with 2 for YUY2/YVYU/UYVY and
semi-planar with 2 for NV12/NV21 — and the per-frame upload issues the
matching texture layouts, with chroma planes at their subsampled
sizes. -/
theorem claim_C7_shader_and_upload_dispatch :
    (init_egl_surface_shader GstVideoFormat.RGB = (FragShaderVariant.copy, 1) ∧
     init_egl_surface_shader GstVideoFormat.RGBx = (FragShaderVariant.copy, 1) ∧
     init_egl_surface_shader GstVideoFormat.RGBA = (FragShaderVariant.copy, 1) ∧
     init_egl_surface_shader GstVideoFormat.RGB16 = (FragShaderVariant.copy, 1) ∧
     init_egl_surface_shader GstVideoFormat.BGR =
       (FragShaderVariant.reorder 'b' 'g' 'r', 1) ∧
     init_egl_surface_shader GstVideoFormat.BGRx =
       (FragShaderVariant.reorder 'b' 'g' 'r', 1) ∧
     init_egl_surface_shader GstVideoFormat.BGRA =
       (FragShaderVariant.reorder 'b' 'g' 'r', 1) ∧
     init_egl_surface_shader GstVideoFormat.xRGB =
       (FragShaderVariant.reorder 'g' 'b' 'a', 1) ∧
     init_egl_surface_shader GstVideoFormat.ARGB =
       (FragShaderVariant.reorder 'g' 'b' 'a', 1) ∧
     init_egl_surface_shader GstVideoFormat.xBGR =
       (FragShaderVariant.reorder 'a' 'b' 'g', 1) ∧
     init_egl_surface_shader GstVideoFormat.ABGR =
       (FragShaderVariant.reorder 'a' 'b' 'g', 1) ∧
     init_egl_surface_shader GstVideoFormat.AYUV = (FragShaderVariant.ayuv, 1) ∧
     init_egl_surface_shader GstVideoFormat.Y444 =
       (FragShaderVariant.planarYuv, 3) ∧
     init_egl_surface_shader GstVideoFormat.I420 =
       (FragShaderVariant.planarYuv, 3) ∧
     init_egl_surface_shader GstVideoFormat.YV12 =
       (FragShaderVariant.planarYuv, 3) ∧
     init_egl_surface_shader GstVideoFormat.Y42B =
       (FragShaderVariant.planarYuv, 3) ∧
     init_egl_surface_shader GstVideoFormat.Y41B =
       (FragShaderVariant.planarYuv, 3) ∧
     init_egl_surface_shader GstVideoFormat.YUY2 =
       (FragShaderVariant.packedYuv 'r' 'g' 'a', 2) ∧
     init_egl_surface_shader GstVideoFormat.YVYU =
       (FragShaderVariant.packedYuv 'r' 'a' 'g', 2) ∧
     init_egl_surface_shader GstVideoFormat.UYVY =
       (FragShaderVariant.packedYuv 'a' 'r' 'b', 2) ∧
     init_egl_surface_shader GstVideoFormat.NV12 =
       (FragShaderVariant.nv12nv21 'r' 'a', 2) ∧
     init_egl_surface_shader GstVideoFormat.NV21 =
       (FragShaderVariant.nv12nv21 'a' 'r', 2)) ∧
    (∀ w h : Nat,
      render_and_display_uploads EglImageFmtKind.rgba8888 GstVideoFormat.AYUV
          w h = [{ fmt := GLTexFormat.rgba, w := w, h := h }] ∧
      render_and_display_uploads EglImageFmtKind.rgba8888 GstVideoFormat.RGBA
          w h = [{ fmt := GLTexFormat.rgba, w := w, h := h }] ∧
      render_and_display_uploads EglImageFmtKind.rgba8888 GstVideoFormat.BGRA
          w h = [{ fmt := GLTexFormat.rgba, w := w, h := h }] ∧
      render_and_display_uploads EglImageFmtKind.rgba8888 GstVideoFormat.ARGB
          w h = [{ fmt := GLTexFormat.rgba, w := w, h := h }] ∧
      render_and_display_uploads EglImageFmtKind.rgba8888 GstVideoFormat.ABGR
          w h = [{ fmt := GLTexFormat.rgba, w := w, h := h }] ∧
      render_and_display_uploads EglImageFmtKind.rgba8888 GstVideoFormat.RGBx
          w h = [{ fmt := GLTexFormat.rgba, w := w, h := h }] ∧
      render_and_display_uploads EglImageFmtKind.rgba8888 GstVideoFormat.BGRx
          w h = [{ fmt := GLTexFormat.rgba, w := w, h := h }] ∧
      render_and_display_uploads EglImageFmtKind.rgba8888 GstVideoFormat.xRGB
          w h = [{ fmt := GLTexFormat.rgba, w := w, h := h }] ∧
      render_and_display_uploads EglImageFmtKind.rgba8888 GstVideoFormat.xBGR
          w h = [{ fmt := GLTexFormat.rgba, w := w, h := h }] ∧
      render_and_display_uploads EglImageFmtKind.rgba8888 GstVideoFormat.Y444
          w h =
        [{ fmt := GLTexFormat.luminance, w := w, h := h },
         { fmt := GLTexFormat.luminance, w := w, h := h },
         { fmt := GLTexFormat.luminance, w := w, h := h }] ∧
      render_and_display_uploads EglImageFmtKind.rgba8888 GstVideoFormat.I420
          w h =
        [{ fmt := GLTexFormat.luminance, w := w, h := h },
         { fmt := GLTexFormat.luminance, w := (w + 1) / 2, h := (h + 1) / 2 },
         { fmt := GLTexFormat.luminance, w := (w + 1) / 2, h := (h + 1) / 2 }] ∧
      render_and_display_uploads EglImageFmtKind.rgba8888 GstVideoFormat.YV12
          w h =
        [{ fmt := GLTexFormat.luminance, w := w, h := h },
         { fmt := GLTexFormat.luminance, w := (w + 1) / 2, h := (h + 1) / 2 },
         { fmt := GLTexFormat.luminance, w := (w + 1) / 2, h := (h + 1) / 2 }] ∧
      render_and_display_uploads EglImageFmtKind.rgba8888 GstVideoFormat.Y42B
          w h =
        [{ fmt := GLTexFormat.luminance, w := w, h := h },
         { fmt := GLTexFormat.luminance, w := (w + 1) / 2, h := h },
         { fmt := GLTexFormat.luminance, w := (w + 1) / 2, h := h }] ∧
      render_and_display_uploads EglImageFmtKind.rgba8888 GstVideoFormat.Y41B
          w h =
        [{ fmt := GLTexFormat.luminance, w := w, h := h },
         { fmt := GLTexFormat.luminance, w := (w + 3) / 4, h := h },
         { fmt := GLTexFormat.luminance, w := (w + 3) / 4, h := h }] ∧
      render_and_display_uploads EglImageFmtKind.rgba8888 GstVideoFormat.YUY2
          w h =
        [{ fmt := GLTexFormat.luminanceAlpha, w := w, h := h },
         { fmt := GLTexFormat.rgba, w := (w + 1) / 2, h := h }] ∧
      render_and_display_uploads EglImageFmtKind.rgba8888 GstVideoFormat.YVYU
          w h =
        [{ fmt := GLTexFormat.luminanceAlpha, w := w, h := h },
         { fmt := GLTexFormat.rgba, w := (w + 1) / 2, h := h }] ∧
      render_and_display_uploads EglImageFmtKind.rgba8888 GstVideoFormat.UYVY
          w h =
        [{ fmt := GLTexFormat.luminanceAlpha, w := w, h := h },
         { fmt := GLTexFormat.rgba, w := (w + 1) / 2, h := h }] ∧
      render_and_display_uploads EglImageFmtKind.rgba8888 GstVideoFormat.NV12
          w h =
        [{ fmt := GLTexFormat.luminance, w := w, h := h },
         { fmt := GLTexFormat.luminanceAlpha, w := (w + 1) / 2,
           h := (h + 1) / 2 }] ∧
      render_and_display_uploads EglImageFmtKind.rgba8888 GstVideoFormat.NV21
          w h =
        [{ fmt := GLTexFormat.luminance, w := w, h := h },
         { fmt := GLTexFormat.luminanceAlpha, w := (w + 1) / 2,
           h := (h + 1) / 2 }]) := by
  refine ⟨by decide, fun w h => ?_⟩
  simp [render_and_display_uploads, gst_video_format_get_component_width,
    gst_video_format_get_component_height, round_up_2_half, round_up_4_quarter]
